import Mathlib

/-!
# Verification of the grype_me GitHub Action against its specification

This file gives a shallow embedding, in Lean 4, of the pure core of the
grype_me repository (a GitHub Action that drives the Grype vulnerability
scanner): severity aggregation, scan-target validation, git ref and tag
handling, badge formatting, fail-build cutoff logic, and path-safety checks
for output files.  Each embedded definition is a direct translation of the
corresponding Go function; file and line references point into the
repository sources.  Machine integers are modelled as `Nat` (all the
embedded quantities are counts that are only ever incremented), Go strings
as Lean `String` (reasoned about through their character lists), and
fallible Go functions returning `error` as `Option String` (`none` = no
error) or `Bool`.

Go's `strings.ToLower` is modelled for the ASCII range (the only range the
program compares against: the literals "critical", "high", "medium", "low",
"negligible" are all ASCII).
-/

namespace Grype

/-! ## Data model (src/cmd/grypeme/types.go)

Only the fields read by the verified functions are embedded; the remaining
fields of the Go structs (description, data source, fix info, artifact
info, descriptor) are not consulted by any claim below.
-/

/-- The `vulnerability` object inside a Grype match
(src/cmd/grypeme/types.go, `GrypeMatch.Vulnerability`). -/
structure GrypeVulnerability where
  ID : String := ""
  Severity : String := ""
deriving DecidableEq, Repr

/-- One vulnerability match found by Grype (src/cmd/grypeme/types.go,
`GrypeMatch`). -/
structure GrypeMatch where
  Vulnerability : GrypeVulnerability
deriving DecidableEq, Repr

/-- The parsed Grype JSON report (src/cmd/grypeme/types.go, `GrypeOutput`).
`Matches` is the ordered list of vulnerability matches. -/
structure GrypeOutput where
  Matches : List GrypeMatch
deriving DecidableEq, Repr

/-- Aggregated vulnerability counts (src/cmd/grypeme/types.go,
`VulnerabilityStats`).  The Go fields are `int`, but they only ever hold
counts obtained by incrementing from zero, so they are embedded as `Nat`. -/
structure VulnerabilityStats where
  Total : Nat := 0
  Critical : Nat := 0
  High : Nat := 0
  Medium : Nat := 0
  Low : Nat := 0
  Other : Nat := 0
deriving DecidableEq, Repr

/-- Action configuration (src/cmd/grypeme/types.go, `Config`); only the
string-valued fields consulted by the verified functions are embedded. -/
structure Config where
  Scan : String := ""
  Image : String := ""
  Path : String := ""
  SBOM : String := ""
  SeverityCutoff : String := ""
deriving DecidableEq, Repr

/-! ## ASCII lower-casing (models Go `strings.ToLower` on ASCII data) -/

/-- ASCII lower-casing of one character: `'A'..'Z'` map to `'a'..'z'`,
everything else is unchanged.  Models Go `unicode.ToLower` on the ASCII
range. -/
def charToLower (c : Char) : Char :=
  if 'A' ≤ c ∧ c ≤ 'Z' then Char.ofNat (c.toNat + 32) else c

/-- ASCII model of Go `strings.ToLower`. -/
def goToLower (s : String) : String :=
  String.mk (s.toList.map charToLower)

/-! ## Severity aggregation (src/unnamed/part_006 lines 178-199,
`calculateStats`) -/

/-- One iteration of the `for _, match := range output.Matches` loop body of
`calculateStats`: increment `Total`, then increment exactly one severity
bucket chosen by the `switch strings.ToLower(match.Vulnerability.Severity)`
statement. -/
def calculateStatsStep (stats : VulnerabilityStats) (m : GrypeMatch) :
    VulnerabilityStats :=
  let stats := { stats with Total := stats.Total + 1 }
  let sev := goToLower m.Vulnerability.Severity
  if sev = "critical" then { stats with Critical := stats.Critical + 1 }
  else if sev = "high" then { stats with High := stats.High + 1 }
  else if sev = "medium" then { stats with Medium := stats.Medium + 1 }
  else if sev = "low" then { stats with Low := stats.Low + 1 }
  else { stats with Other := stats.Other + 1 }

/-- Function `calculateStats` (src/unnamed/part_006 lines 178-199): aggregate
vulnerability counts by severity level from the scan output, starting from
the zero-valued `VulnerabilityStats{}` literal. -/
def calculateStats (output : GrypeOutput) : VulnerabilityStats :=
  output.Matches.foldl calculateStatsStep {}

/-- Bucket predicate: the lower-cased severity equals `name`. -/
def sevIs (name : String) (m : GrypeMatch) : Bool :=
  goToLower m.Vulnerability.Severity = name

/-- Bucket predicate for the `default` branch of the `switch` in
`calculateStats`: the lower-cased severity is none of the four named
levels. -/
def sevIsOther (m : GrypeMatch) : Bool :=
  ¬ (sevIs "critical" m ∨ sevIs "high" m ∨ sevIs "medium" m ∨ sevIs "low" m)

/-! ## Artifact-mode validation (src/unnamed/part_006 lines 44-69) -/

/-- Function `countNonEmpty` (src/unnamed/part_006 lines 61-69): the count of
non-empty strings among the arguments. -/
def countNonEmpty (values : List String) : Nat :=
  values.foldl (fun count v => if v ≠ "" then count + 1 else count) 0

/-- Function `validateArtifactModes` (src/unnamed/part_006 lines 46-58): checks that
only one artifact mode is specified and that artifact modes are not
combined with repository scan mode.  `none` means no error. -/
def validateArtifactModes (config : Config) : Option String :=
  let artifactModeCount := countNonEmpty [config.Image, config.Path, config.SBOM]
  if artifactModeCount > 1 then
    some "only one of image, path, or sbom can be specified"
  else if artifactModeCount > 0 ∧ config.Scan ≠ "" then
    some "scan cannot be used together with image, path, or sbom"
  else
    none

/-! ## Scan runner outcome (src/unnamed/part_006 lines 127-149,
`runGrypeScan`)

The process spawn itself is I/O; the verified logic is the error-handling
decision after `cmd.Run()` returns: on a non-zero exit (`runErr = true`),
the run is reported successful exactly when `os.Stat(outputPath)` finds the
output file (`outputExists = true`); on a zero exit it is always
successful. -/

/-- Success (`true`) / error (`false`) outcome of `runGrypeScan` as a
function of whether `cmd.Run()` returned an error and whether the output
file exists afterwards (src/unnamed/part_006 lines 136-148). -/
def runGrypeScanOutcome (runErr : Bool) (outputExists : Bool) : Bool :=
  if runErr then
    if outputExists then true else false
  else
    true

/-! ## Fail-build cutoff (src/unnamed/part_006 lines 203-219, `shouldFail`) -/

/-- Function `shouldFail` (src/unnamed/part_006 lines 203-219): whether the build
should fail given the stats and the severity cutoff; an unknown cutoff
falls through to the `default` branch, which behaves like "medium". -/
def shouldFail (stats : VulnerabilityStats) (cutoff : String) : Bool :=
  let c := goToLower cutoff
  if c = "critical" then decide (stats.Critical > 0)
  else if c = "high" then decide (stats.Critical > 0) || decide (stats.High > 0)
  else if c = "medium" then
    decide (stats.Critical > 0) || decide (stats.High > 0) || decide (stats.Medium > 0)
  else if c = "low" then
    decide (stats.Critical > 0) || decide (stats.High > 0) ||
      decide (stats.Medium > 0) || decide (stats.Low > 0)
  else if c = "negligible" then decide (stats.Total > 0)
  else
    decide (stats.Critical > 0) || decide (stats.High > 0) || decide (stats.Medium > 0)

/-! ## Git ref validation (src/git.go lines 100-129, `validateRefName`) -/

/-- The rune test of the control-character loop in `validateRefName`
(src/git.go line 109): code point below 32 or equal to 127. -/
def isControlChar (c : Char) : Bool :=
  decide (c.toNat < 32) || decide (c.toNat = 127)

/-- Constant `invalidPatterns` (src/git.go line 115): the literal substrings that are
invalid in a Git ref name, as character lists. -/
def invalidPatterns : List (List Char) :=
  [['.', '.'], ['~'], ['^'], [':'], ['?'], ['*'], ['['], ['\\'], [' ']]

/-- Function `validateRefName` (src/git.go lines 102-129): validates a Git reference
name; `none` means the ref is accepted. -/
def validateRefName (ref : String) : Option String :=
  if ref = "" then some "ref name cannot be empty"
  else if ref.toList.any isControlChar then
    some "ref contains invalid control character"
  else if invalidPatterns.any (fun p => decide (List.IsInfix p ref.toList)) then
    some "ref contains invalid pattern"
  else if ref.toList.head? = some '.' ∨ ref.toList.getLast? = some '.' ∨
      ref.toList.head? = some '/' ∨ ref.toList.getLast? = some '/' then
    some "ref cannot start or end with . or /"
  else none

/-! ## Pre-release tag detection (src/git.go lines 79-98, `isPreReleaseTag`) -/

/-- Go `strings.TrimPrefix` with a one-character pattern, on character
lists: drop the first character when it equals `c`. -/
def trimPrefixChar (c : Char) : List Char → List Char
  | [] => []
  | x :: rest => if x = c then rest else x :: rest

/-- Go `strings.SplitN(s, "-", 2)` on character lists: the part before the
first `'-'`, and `some` remainder after it (`none` when there is no
`'-'`). -/
def splitFirstDash : List Char → List Char × Option (List Char)
  | [] => ([], none)
  | c :: rest =>
    if c = '-' then ([], some rest)
    else
      let r := splitFirstDash rest
      (c :: r.1, r.2)

/-- The per-rune test of the version-part loop in `isPreReleaseTag`
(src/git.go lines 90-94): a digit or a dot. -/
def isVersionChar (c : Char) : Bool :=
  c = '.' || ('0' ≤ c && c ≤ '9')

/-- Function `isPreReleaseTag` (src/git.go lines 79-98): strips a leading `"v"` and
then a leading `"V"` (two nested `strings.TrimPrefix` calls), splits on the
first `'-'`; pre-release iff a `'-'` is present, the part before it is a
non-empty string of digits and dots, and the part after it is non-empty. -/
def isPreReleaseTag (tag : String) : Bool :=
  match splitFirstDash (trimPrefixChar 'V' (trimPrefixChar 'v' tag.toList)) with
  | (_, none) => false
  | (versionPart, some suffix) =>
    versionPart.all isVersionChar && !versionPart.isEmpty && !suffix.isEmpty

/-- The first normalisation step of the claim's reading of the pre-release
predicate: strip ONE leading `'v'`/`'V'` character. -/
def stripOneLeadingV (cs : List Char) : List Char :=
  match cs with
  | [] => []
  | c :: rest => if c = 'v' ∨ c = 'V' then rest else c :: rest

/-- The condition the claim describes for `isPreReleaseTag`, written from
its words: strip ONE leading `'v'`/`'V'` character, then apply the same
split-on-first-dash test.  Used to compare the claim against the source
function, which strips a `"v"` prefix and then a `"V"` prefix. -/
def isPreReleaseTagClaim (tag : String) : Bool :=
  match splitFirstDash (stripOneLeadingV tag.toList) with
  | (_, none) => false
  | (versionPart, some suffix) =>
    versionPart.all isVersionChar && !versionPart.isEmpty && !suffix.isEmpty

/-! ## Latest release tag selection (src/git.go lines 38-74,
`getLatestReleaseTag`)

The `git fetch` / `git tag --sort=-v:refname` process spawns are I/O; the
embedded function is the selection logic of lines 59-73, taking as input
the tag list `strings.Split(strings.TrimSpace(output), "\n")` produced by
git (one non-empty tag name per line, already sorted by descending
version).  `none` models the `"no release tags found"` error. -/

/-- The tag-selection logic of `getLatestReleaseTag` (src/git.go lines
59-73) as a function of the split tag list. -/
def getLatestReleaseTag (tags : List String) : Option String :=
  if tags = [] ∨ tags.headD "" = "" then none
  else
    match tags.find? (fun tag => !isPreReleaseTag tag) with
    | some tag => some tag
    | none => some (tags.headD "")

/-! ## Badge message formatting (`formatBadgeMessage`, current variant
src/unnamed/part_000 lines 212-235, legacy variant src/unnamed/part_006
lines 468-494; the two bodies differ only in the total-zero string) -/

/-- The `parts` slice built by `formatBadgeMessage`: one `"<n> <level>"`
entry per non-zero bucket among critical, high, medium, low in that fixed
order, and the `"<n> other"` fallback when all four are zero but `Other`
is not. -/
def badgeParts (stats : VulnerabilityStats) : List String :=
  let parts : List String := []
  let parts := if stats.Critical > 0 then parts ++ [toString stats.Critical ++ " critical"] else parts
  let parts := if stats.High > 0 then parts ++ [toString stats.High ++ " high"] else parts
  let parts := if stats.Medium > 0 then parts ++ [toString stats.Medium ++ " medium"] else parts
  let parts := if stats.Low > 0 then parts ++ [toString stats.Low ++ " low"] else parts
  if parts = [] ∧ stats.Other > 0 then parts ++ [toString stats.Other ++ " other"] else parts

/-- Function `formatBadgeMessage`, current variant (src/unnamed/part_000 lines
212-235): `"0"` when `Total` is zero, otherwise the non-zero bucket counts
joined with `" | "`. -/
def formatBadgeMessage (stats : VulnerabilityStats) : String :=
  if stats.Total = 0 then "0" else String.intercalate " | " (badgeParts stats)

/-- Function `formatBadgeMessage`, legacy variant (src/unnamed/part_006 lines
468-494): identical except that the total-zero message is `"none"`. -/
def formatBadgeMessageLegacy (stats : VulnerabilityStats) : String :=
  if stats.Total = 0 then "none" else String.intercalate " | " (badgeParts stats)

/-! ## Gist report anchor

`buildGistFileAnchor` is called by `UpdateGist` and exercised by
`TestBuildGistFileAnchor` (src/cmd/grypeme/gist_test.go lines 233-253) and
`FuzzBuildGistFileAnchor` (src/unnamed/part_002 lines 237-275), but its
definition is not among the sources; it is modelled here from the spec. -/

/-- A character the anchor keeps unchanged: a lower-case ASCII letter or a
digit. -/
def anchorKeepChar (c : Char) : Bool :=
  ('a' ≤ c && c ≤ 'z') || ('0' ≤ c && c ≤ '9')

/-- Modelled from the spec: the spec's description of the missing
`buildGistFileAnchor` taken word for word — "lowercase, `.` → `-`, `_` →
`-`, any non `[a-z0-9-]` character → `-`, prefixed with `file-`" — i.e. a
character-by-character replacement that keeps `[a-z0-9-]` and turns every
other character into one `'-'`. -/
def buildGistFileAnchorSpecWords (name : String) : String :=
  "file-" ++ String.mk
    ((goToLower name).toList.map (fun c => if anchorKeepChar c || c = '-' then c else '-'))

/-- Collapse every run of consecutive `'-'` characters into a single
`'-'`. -/
def collapseDashes : List Char → List Char
  | [] => []
  | [c] => [c]
  | c :: d :: rest =>
    if c = '-' ∧ d = '-' then collapseDashes (d :: rest)
    else c :: collapseDashes (d :: rest)

/-- Modelled from the spec: the missing `buildGistFileAnchor`, amended to
agree with the repository's own test table (TestBuildGistFileAnchor,
src/cmd/grypeme/gist_test.go lines 233-253): lowercase the filename,
replace every character outside `[a-z0-9]` by `'-'`, collapse consecutive
dashes to one, and prefix `"file-"`; an empty filename yields an empty
anchor. -/
def buildGistFileAnchor (name : String) : String :=
  if name = "" then ""
  else
    "file-" ++ String.mk
      (collapseDashes ((goToLower name).toList.map (fun c => if anchorKeepChar c then c else '-')))

/-- Modelled from the spec: the report link placed in `GistResult` after a
successful gist update — the gist page URL followed by the GitHub-flavored
Markdown anchor of the report file (the expectation of
`TestUpdateGist_Success`, src/cmd/grypeme/gist_test.go line 96). -/
def gistReportURL (htmlURL reportFilename : String) : String :=
  htmlURL ++ "#" ++ buildGistFileAnchor reportFilename

/-! ## Path cleaning, joining and relativisation (Go `path/filepath` for
Unix paths, as used by src/unnamed/part_000 lines 391-462) -/

/-- Go `filepath.IsAbs` on Unix: the path starts with `'/'`. -/
def pathIsAbs (p : String) : Bool :=
  p.toList.head? = some '/'

/-- Split a character list at every occurrence of `sep` (Go
`strings.Split` semantics: the empty list yields one empty group). -/
def splitChar (sep : Char) : List Char → List (List Char)
  | [] => [[]]
  | c :: rest =>
    match splitChar sep rest with
    | [] => if c = sep then [[], []] else [[c]]
    | g :: gs => if c = sep then [] :: g :: gs else (c :: g) :: gs

/-- Go `strings.Split(s, "/")`: the `'/'`-separated components of `s`. -/
def goSplitSlash (s : String) : List String :=
  (splitChar '/' s.toList).map String.mk

/-- Drop a leading `'/'` (Go `path[1:]` after an `IsAbs` check). -/
def dropLeadingSlash (s : String) : String :=
  String.mk (s.toList.drop 1)

/-- One step of Go `filepath.Clean`'s element scan: skip empty and `"."`
elements; on `".."` pop the last output element when one is poppable, drop
the `".."` at the root of a rooted path, and otherwise emit it; emit every
other element. -/
def cleanStep (rooted : Bool) (acc : List String) (e : String) : List String :=
  if e = "" ∨ e = "." then acc
  else if e = ".." then
    if acc ≠ [] ∧ acc.getLast? ≠ some ".." then acc.dropLast
    else if rooted then acc
    else acc ++ [".."]
  else acc ++ [e]

/-- Go `filepath.Clean` for Unix paths. -/
def cleanPath (path : String) : String :=
  if path = "" then "."
  else
    let rooted := pathIsAbs path
    let out := (goSplitSlash path).foldl (cleanStep rooted) []
    if rooted then "/" ++ String.intercalate "/" out
    else if out = [] then "." else String.intercalate "/" out

/-- Go `filepath.Join` of two components for Unix paths: join the
non-empty components with `'/'` and clean the result. -/
def joinPath (a b : String) : String :=
  if a = "" then
    if b = "" then "" else cleanPath b
  else if b = "" then cleanPath a
  else cleanPath (a ++ "/" ++ b)

/-- Go `filepath.Abs` for Unix paths, with the process working directory
passed explicitly: an absolute path is cleaned, a relative one is joined
onto `cwd`. -/
def filepathAbs (path cwd : String) : String :=
  if pathIsAbs path then cleanPath path else joinPath cwd path

/-- Length of the longest common prefix of two segment lists (the common
segment scan of Go `filepath.Rel`). -/
def commonPrefixLen : List String → List String → Nat
  | a :: as, b :: bs => if a = b then commonPrefixLen as bs + 1 else 0
  | _, _ => 0

/-- The `'/'`-separated segments of a cleaned path body (empty body =
no segments). -/
def pathSegments (s : String) : List String :=
  if s = "" then [] else goSplitSlash s

/-- Go `filepath.Rel` for Unix paths: clean both paths, strip the common
segment prefix, and climb out of the remaining base segments with `".."`s.
`none` models Go's "can't make relative" error (rootedness mismatch, or a
`".."` left in the base remainder). -/
def filepathRel (basepath targpath : String) : Option String :=
  let base0 := cleanPath basepath
  let targ0 := cleanPath targpath
  if targ0 = base0 then some "."
  else if pathIsAbs base0 ≠ pathIsAbs targ0 then none
  else
    let bBody :=
      if base0 = "." then "" else if pathIsAbs base0 then dropLeadingSlash base0 else base0
    let tBody :=
      if targ0 = "." then "" else if pathIsAbs targ0 then dropLeadingSlash targ0 else targ0
    let bSegs := pathSegments bBody
    let tSegs := pathSegments tBody
    let n := commonPrefixLen bSegs tSegs
    let bRest := bSegs.drop n
    let tRest := tSegs.drop n
    if bRest.head? = some ".." then none
    else if bRest ≠ [] then
      some (String.intercalate "/" (List.replicate bRest.length ".." ++ tRest))
    else
      some (String.intercalate "/" tRest)

/-! ## Workspace path safety (src/unnamed/part_000 lines 389-462) -/

/-- Function `validatePathInWorkspace` (src/unnamed/part_000 lines 391-412): cleans
and absolutises destination and workspace, computes the relative path from
the workspace to the destination, and reports path traversal when that
relative path starts with `"../"` or equals `".."`.  `none` means the
destination is accepted. -/
def validatePathInWorkspace (destPath workspace cwd : String) : Option String :=
  match filepathRel (filepathAbs (cleanPath workspace) cwd)
      (filepathAbs (cleanPath destPath) cwd) with
  | none => some "failed to compute relative path"
  | some relPath =>
    if ("../").toList.isPrefixOf relPath.toList ∨ relPath = ".." then
      some "path traversal detected"
    else none

/-- Function `resolveDestinationPath` (src/unnamed/part_000 lines 444-462):
an absolute destination passes through with no workspace; a relative one
is resolved against the container mount `/github/workspace` when that
directory exists (`mountExists`), else against the `GITHUB_WORKSPACE`
environment value when non-empty, else against the working directory with
no workspace.  Returns `(resolvedPath, workspaceUsed)`. -/
def resolveDestinationPath (destPath : String) (mountExists : Bool)
    (envWorkspace : String) (cwd : String) : String × String :=
  if pathIsAbs destPath then (destPath, "")
  else if mountExists then (joinPath "/github/workspace" destPath, "/github/workspace")
  else if envWorkspace ≠ "" then (joinPath envWorkspace destPath, envWorkspace)
  else (filepathAbs destPath cwd, "")

/-- The path-safety prefix of `copyOutputFile` (src/unnamed/part_000 lines
417-424): resolve the destination, then validate it against the workspace
when one was used; the subsequent directory creation and file copy are
I/O.  `none` means the destination is accepted. -/
def copyOutputFileCheck (destPath : String) (mountExists : Bool)
    (envWorkspace : String) (cwd : String) : Option String :=
  let rd := resolveDestinationPath destPath mountExists envWorkspace cwd
  if rd.2 ≠ "" then validatePathInWorkspace rd.1 rd.2 cwd else none

/-! ## Auxiliary lemmas -/

/-- Applying `String.intercalate` to a one-element list returns that element. -/
theorem intercalate_singleton (s a : String) : String.intercalate s [a] = a := by
  simp [String.intercalate, String.intercalate.go]

/-- The fold of `calculateStats`, started from an arbitrary accumulator, adds the
length and the per-bucket counts of the match list to the accumulator. -/
theorem calculateStats_foldl (ms : List GrypeMatch) (s : VulnerabilityStats) :
    ms.foldl calculateStatsStep s =
      ⟨s.Total + ms.length,
       s.Critical + ms.countP (sevIs "critical"),
       s.High + ms.countP (sevIs "high"),
       s.Medium + ms.countP (sevIs "medium"),
       s.Low + ms.countP (sevIs "low"),
       s.Other + ms.countP sevIsOther⟩ := by
  induction ms generalizing s with
  | nil => simp
  | cons m rest ih =>
    rw [List.foldl_cons, ih]
    by_cases h1 : goToLower m.Vulnerability.Severity = "critical" <;>
      by_cases h2 : goToLower m.Vulnerability.Severity = "high" <;>
      by_cases h3 : goToLower m.Vulnerability.Severity = "medium" <;>
      by_cases h4 : goToLower m.Vulnerability.Severity = "low" <;>
      simp_all [calculateStatsStep, sevIs, sevIsOther, List.countP_cons] <;>
      omega

/-- Function `calculateStats` returns the length of the match list as `Total` and
the count of matches falling in each bucket as the bucket fields. -/
theorem calculateStats_characterization (output : GrypeOutput) :
    calculateStats output =
      ⟨output.Matches.length,
       output.Matches.countP (sevIs "critical"),
       output.Matches.countP (sevIs "high"),
       output.Matches.countP (sevIs "medium"),
       output.Matches.countP (sevIs "low"),
       output.Matches.countP sevIsOther⟩ := by
  simpa [calculateStats] using calculateStats_foldl output.Matches {}

/-- Each match satisfies exactly one of the five bucket predicates, so the
bucket counts sum to the length of the list. -/
theorem bucket_countP_sum (ms : List GrypeMatch) :
    ms.countP (sevIs "critical") + ms.countP (sevIs "high") +
      ms.countP (sevIs "medium") + ms.countP (sevIs "low") +
      ms.countP sevIsOther = ms.length := by
  induction ms with
  | nil => simp
  | cons m rest ih =>
    by_cases h1 : goToLower m.Vulnerability.Severity = "critical" <;>
      by_cases h2 : goToLower m.Vulnerability.Severity = "high" <;>
      by_cases h3 : goToLower m.Vulnerability.Severity = "medium" <;>
      by_cases h4 : goToLower m.Vulnerability.Severity = "low" <;>
      simp_all [sevIs, sevIsOther, List.countP_cons] <;>
      omega

/-! ## Claims -/

/-- C1: `calculateStats` counts each match exactly once, assigning it to
exactly one of the five buckets by case-insensitive comparison of its
severity string, so the returned stats satisfy
`Total = Critical + High + Medium + Low + Other`, and the result is
invariant under permutation of the matches list. -/
theorem calculateStats_sum_invariant_and_perm (output output' : GrypeOutput) :
    ((calculateStats output).Total =
        (calculateStats output).Critical + (calculateStats output).High +
          (calculateStats output).Medium + (calculateStats output).Low +
          (calculateStats output).Other) ∧
    (output.Matches.Perm output'.Matches →
      calculateStats output = calculateStats output') := by
  constructor
  · rw [calculateStats_characterization]
    exact (bucket_countP_sum output.Matches).symm
  · intro hperm
    rw [calculateStats_characterization, calculateStats_characterization]
    simp [hperm.length_eq, hperm.countP_eq]

/-- Witness for C1: the sum invariant and the permutation invariance at a
concrete two-match report and its swap. -/
theorem calculateStats_sum_invariant_and_perm_witness :
    calculateStats ⟨[⟨⟨"CVE-1", "Critical"⟩⟩, ⟨⟨"CVE-2", "low"⟩⟩]⟩ =
      calculateStats ⟨[⟨⟨"CVE-2", "low"⟩⟩, ⟨⟨"CVE-1", "Critical"⟩⟩]⟩ :=
  (calculateStats_sum_invariant_and_perm
      (⟨[⟨⟨"CVE-1", "Critical"⟩⟩, ⟨⟨"CVE-2", "low"⟩⟩]⟩ : GrypeOutput)
      (⟨[⟨⟨"CVE-2", "low"⟩⟩, ⟨⟨"CVE-1", "Critical"⟩⟩]⟩ : GrypeOutput)).2
    (List.Perm.swap (⟨⟨"CVE-2", "low"⟩⟩ : GrypeMatch) (⟨⟨"CVE-1", "Critical"⟩⟩ : GrypeMatch) [])

/-- C2: `validateArtifactModes` reports a conflicting-modes error exactly
when more than one of `Image`, `Path`, `SBOM` is non-empty, or at least
one of them is non-empty while `Scan` is also non-empty; in every other
configuration (at most one artifact mode, `Scan` empty — or no artifact
mode at all) no error is raised. -/
theorem validateArtifactModes_conflict_iff (config : Config) :
    validateArtifactModes config ≠ none ↔
      ((config.Image ≠ "" ∧ config.Path ≠ "") ∨
        (config.Image ≠ "" ∧ config.SBOM ≠ "") ∨
        (config.Path ≠ "" ∧ config.SBOM ≠ "")) ∨
      ((config.Image ≠ "" ∨ config.Path ≠ "" ∨ config.SBOM ≠ "") ∧
        config.Scan ≠ "") := by
  rcases config with ⟨scan, image, path, sbom, sc⟩
  by_cases hi : image = "" <;> by_cases hp : path = "" <;>
    by_cases hs : sbom = "" <;> by_cases hsc : scan = "" <;>
    simp [validateArtifactModes, countNonEmpty, hi, hp, hs, hsc]

/-- C7: `runGrypeScan` treats a non-zero scanner exit as success exactly
when the JSON output file exists afterwards, and reports an error exactly
when the scanner exited non-zero and no output file was produced. -/
theorem runGrypeScan_nonzero_tolerated_iff_output_exists :
    ∀ runErr outputExists : Bool,
      (runGrypeScanOutcome true outputExists = true ↔ outputExists = true) ∧
      (runGrypeScanOutcome runErr outputExists = false ↔
        runErr = true ∧ outputExists = false) := by
  decide

/-- C10: for any cutoff string whose lower-cased value is not one of the
five recognised severities, `shouldFail` behaves exactly like the
`"medium"` cutoff: it fails iff `Critical`, `High` or `Medium` is
positive. -/
theorem shouldFail_unknown_cutoff_defaults_to_medium
    (stats : VulnerabilityStats) (cutoff : String)
    (h : goToLower cutoff ∉
      (["critical", "high", "medium", "low", "negligible"] : List String)) :
    shouldFail stats cutoff = shouldFail stats "medium" ∧
    (shouldFail stats cutoff = true ↔
      stats.Critical > 0 ∨ stats.High > 0 ∨ stats.Medium > 0) := by
  simp only [List.mem_cons, List.not_mem_nil, or_false, not_or] at h
  obtain ⟨h1, h2, h3, h4, h5⟩ := h
  have hmed : goToLower "medium" = "medium" := by decide
  constructor
  · simp [shouldFail, h1, h2, h3, h4, h5, hmed]
  · simp [shouldFail, h1, h2, h3, h4, h5, or_assoc]

/-- Witness for C10: the unknown cutoff `"bogus"` behaves like `"medium"`
on stats with one critical and one low finding. -/
theorem shouldFail_unknown_cutoff_defaults_to_medium_witness :
    shouldFail ⟨2, 1, 0, 0, 1, 0⟩ "bogus" = shouldFail ⟨2, 1, 0, 0, 1, 0⟩ "medium" ∧
    (shouldFail ⟨2, 1, 0, 0, 1, 0⟩ "bogus" = true ↔
      (⟨2, 1, 0, 0, 1, 0⟩ : VulnerabilityStats).Critical > 0 ∨
        (⟨2, 1, 0, 0, 1, 0⟩ : VulnerabilityStats).High > 0 ∨
        (⟨2, 1, 0, 0, 1, 0⟩ : VulnerabilityStats).Medium > 0) :=
  shouldFail_unknown_cutoff_defaults_to_medium ⟨2, 1, 0, 0, 1, 0⟩ "bogus" (by decide)

/-- A one-element list is an infix exactly when its element is a member. -/
theorem singleton_infix_iff {α : Type} (a : α) (l : List α) :
    [a] <:+: l ↔ a ∈ l := by
  constructor
  · rintro ⟨s, t, rfl⟩; simp
  · intro h
    obtain ⟨s, t, rfl⟩ := List.append_of_mem h
    exact ⟨s, t, by simp⟩

set_option maxHeartbeats 1600000 in
/-- C3: `validateRefName` rejects a ref exactly when it is empty, contains
an ASCII control character (code point below 32 or equal to 127), contains
one of the forbidden substrings `".."`, `"~"`, `"^"`, `":"`, `"?"`, `"*"`,
`"["`, `"\"`, `" "`, or begins or ends with `'.'` or `'/'`; in particular
the five listed refs are rejected and `"feature/x"`, `"v1.0.0"` are
accepted. -/
theorem validateRefName_spec :
    (∀ ref : String, validateRefName ref ≠ none ↔
      ref = "" ∨ (∃ c ∈ ref.toList, c.toNat < 32 ∨ c.toNat = 127) ∨
      List.IsInfix ['.', '.'] ref.toList ∨ '~' ∈ ref.toList ∨ '^' ∈ ref.toList ∨
      ':' ∈ ref.toList ∨ '?' ∈ ref.toList ∨ '*' ∈ ref.toList ∨ '[' ∈ ref.toList ∨
      '\\' ∈ ref.toList ∨ ' ' ∈ ref.toList ∨
      ref.toList.head? = some '.' ∨ ref.toList.getLast? = some '.' ∨
      ref.toList.head? = some '/' ∨ ref.toList.getLast? = some '/') ∧
    validateRefName "" ≠ none ∧ validateRefName "a..b" ≠ none ∧
    validateRefName "a b" ≠ none ∧ validateRefName ".a" ≠ none ∧
    validateRefName "a/" ≠ none ∧ validateRefName "feature/x" = none ∧
    validateRefName "v1.0.0" = none := by
  refine ⟨?_, by decide, by decide, by decide, by decide, by decide, by decide, by decide⟩
  intro ref
  unfold validateRefName
  split_ifs with h0 h1 h2 h3 <;>
    simp_all [List.any_eq_true, isControlChar, invalidPatterns, singleton_infix_iff]
  all_goals tauto

/-! ### C6 helpers: characterisation of `splitFirstDash` -/

/-- Function `splitFirstDash` applied to a list whose first dash separates `pre`
from `suf` returns exactly that decomposition. -/
theorem splitFirstDash_append (pre suf : List Char) (h : '-' ∉ pre) :
    splitFirstDash (pre ++ '-' :: suf) = (pre, some suf) := by
  induction pre with
  | nil => simp [splitFirstDash]
  | cons c rest ih =>
    simp only [List.mem_cons, not_or] at h
    have hc : ¬ c = '-' := fun hh => h.1 hh.symm
    simp [splitFirstDash, hc, ih h.2]

/-- If `splitFirstDash` returns a suffix, the input decomposes at its first
dash: the part before it contains no dash. -/
theorem splitFirstDash_sound :
    ∀ (cs pre suf : List Char), splitFirstDash cs = (pre, some suf) →
      cs = pre ++ '-' :: suf ∧ '-' ∉ pre := by
  intro cs
  induction cs with
  | nil => intro pre suf h; exact absurd h (by simp [splitFirstDash])
  | cons c rest ih =>
    intro pre suf h
    by_cases hc : c = '-'
    · subst hc
      have hsp : splitFirstDash ('-' :: rest) = ([], some rest) := by
        simp [splitFirstDash]
      rw [hsp] at h
      injection h with h1 h2
      injection h2 with h2
      subst h1; subst h2
      exact ⟨rfl, by simp⟩
    · have hsp : splitFirstDash (c :: rest) =
          (c :: (splitFirstDash rest).1, (splitFirstDash rest).2) := by
        simp [splitFirstDash, hc]
      rw [hsp] at h
      injection h with h1 h2
      obtain ⟨hrest, hnd⟩ := ih (splitFirstDash rest).1 suf (by rw [← h2])
      subst h1
      constructor
      · simpa using congrArg (fun l => c :: l) hrest
      · simp only [List.mem_cons, not_or]
        exact ⟨fun hh => hc hh.symm, hnd⟩

/-- Counterexample for C6 as frozen: on the tag `"vV1-a"` the code strips
both the `"v"` and the `"V"` prefix (two nested `strings.TrimPrefix`
calls) and reports a pre-release, while the claim's reading — strip one
leading `'v'`/`'V'` character — leaves `"V1"` before the dash and reports
a non-pre-release. -/
theorem isPreReleaseTag_claim_counterexample :
    isPreReleaseTag "vV1-a" = true ∧ isPreReleaseTagClaim "vV1-a" = false := by
  decide

/-- C6 (amended): `isPreReleaseTag tag` is true iff, after stripping a
leading `"v"` and then a leading `"V"` (so a `"vV"` prefix loses both
characters), the tag contains a `'-'`, the part before the first `'-'` is
non-empty and consists solely of digits and `'.'`, and the part after that
`'-'` is non-empty; the claim's four examples hold. -/
theorem isPreReleaseTag_spec :
    (∀ tag : String, isPreReleaseTag tag = true ↔
      ∃ pre suf : List Char,
        trimPrefixChar 'V' (trimPrefixChar 'v' tag.toList) = pre ++ '-' :: suf ∧
          '-' ∉ pre ∧ pre ≠ [] ∧ suf ≠ [] ∧
          ∀ c ∈ pre, c = '.' ∨ ('0' ≤ c ∧ c ≤ '9')) ∧
    isPreReleaseTag "v1.0.0" = false ∧ isPreReleaseTag "v1.0.0-alpha" = true ∧
    isPreReleaseTag "v1.0.0-rc1" = true ∧ isPreReleaseTag "release-1.0" = false := by
  refine ⟨?_, by decide, by decide, by decide, by decide⟩
  intro tag
  unfold isPreReleaseTag
  constructor
  · intro h
    rcases heq : splitFirstDash (trimPrefixChar 'V' (trimPrefixChar 'v' tag.toList)) with
      ⟨fst, snd⟩
    rw [heq] at h
    cases snd with
    | none => simp at h
    | some suf =>
      simp only [Bool.and_eq_true, List.all_eq_true, Bool.not_eq_true'] at h
      obtain ⟨hdec, hnd⟩ := splitFirstDash_sound _ fst suf heq
      refine ⟨fst, suf, hdec, hnd, ?_, ?_, ?_⟩
      · have := h.1.2
        simpa [List.isEmpty_iff] using this
      · have := h.2
        simpa [List.isEmpty_iff] using this
      · intro c hc
        have := h.1.1 c hc
        simpa [isVersionChar] using this
  · rintro ⟨pre, suf, hdec, hnd, hpre, hsuf, hver⟩
    rw [hdec, splitFirstDash_append pre suf hnd]
    simp only [Bool.and_eq_true, List.all_eq_true, Bool.not_eq_true']
    refine ⟨⟨?_, ?_⟩, ?_⟩
    · intro c hc
      simpa [isVersionChar] using hver c hc
    · simpa [List.isEmpty_iff] using hpre
    · simpa [List.isEmpty_iff] using hsuf

/-- C5: given a (non-empty-string) tag list in git's sorted order, the
selection logic of `getLatestReleaseTag` errs exactly on an empty list,
returns the first non-pre-release tag when one exists, and falls back to
the first (highest-sorted) tag when every tag is a pre-release. -/
theorem getLatestReleaseTag_spec (tags : List String)
    (hne : ∀ t ∈ tags, t ≠ "") :
    (getLatestReleaseTag tags = none ↔ tags = []) ∧
    (∀ t, tags.find? (fun s => !isPreReleaseTag s) = some t →
      getLatestReleaseTag tags = some t) ∧
    ((∀ t ∈ tags, isPreReleaseTag t = true) → tags ≠ [] →
      getLatestReleaseTag tags = tags.head?) := by
  cases tags with
  | nil => simp [getLatestReleaseTag]
  | cons t ts =>
    have ht : t ≠ "" := hne t (by simp)
    refine ⟨?_, ?_, ?_⟩
    · cases hf : (t :: ts).find? (fun s => !isPreReleaseTag s) <;>
        simp [getLatestReleaseTag, ht, hf]
    · intro u hu
      simp [getLatestReleaseTag, ht, hu]
    · intro hall _
      have hf : (t :: ts).find? (fun s => !isPreReleaseTag s) = none := by
        rw [List.find?_eq_none]
        intro x hx
        simp [hall x hx]
      simp [getLatestReleaseTag, ht, hf]

/-- Witness for C5: on the sorted tag list `["v2.0.0-alpha", "v1.0.0"]`
the first stable tag `"v1.0.0"` is selected. -/
theorem getLatestReleaseTag_spec_witness :
    getLatestReleaseTag ["v2.0.0-alpha", "v1.0.0"] = some "v1.0.0" :=
  (getLatestReleaseTag_spec ["v2.0.0-alpha", "v1.0.0"] (by decide)).2.1
    "v1.0.0" (by decide)

/-- C8: `formatBadgeMessage` returns `"0"` (`"none"` in the legacy
variant) when `Total` is zero; otherwise it joins with `" | "` the counts
of the non-zero buckets among critical, high, medium, low in that fixed
order, falling back to `"<n> other"` when only `Other` is non-zero;
`{Critical:2, High:3}` yields `"2 critical | 3 high"`. -/
theorem formatBadgeMessage_spec (stats : VulnerabilityStats) (n : Nat) :
    (stats.Total = 0 →
      formatBadgeMessage stats = "0" ∧ formatBadgeMessageLegacy stats = "none") ∧
    (stats.Total ≠ 0 →
      formatBadgeMessage stats =
        String.intercalate " | "
          ((if stats.Critical > 0 then [toString stats.Critical ++ " critical"] else []) ++
            (if stats.High > 0 then [toString stats.High ++ " high"] else []) ++
            (if stats.Medium > 0 then [toString stats.Medium ++ " medium"] else []) ++
            (if stats.Low > 0 then [toString stats.Low ++ " low"] else []) ++
            (if stats.Critical = 0 ∧ stats.High = 0 ∧ stats.Medium = 0 ∧ stats.Low = 0 ∧
                stats.Other > 0
              then [toString stats.Other ++ " other"] else [])) ∧
      formatBadgeMessageLegacy stats = formatBadgeMessage stats) ∧
    formatBadgeMessage ⟨5, 2, 3, 0, 0, 0⟩ = "2 critical | 3 high" ∧
    (0 < n → formatBadgeMessage ⟨n, 0, 0, 0, 0, n⟩ = toString n ++ " other") := by
  refine ⟨?_, ?_, by decide, ?_⟩
  · intro h
    simp [formatBadgeMessage, formatBadgeMessageLegacy, h]
  · intro h
    refine ⟨?_, ?_⟩
    · by_cases hc : stats.Critical = 0 <;> by_cases hh : stats.High = 0 <;>
        by_cases hm : stats.Medium = 0 <;> by_cases hl : stats.Low = 0 <;>
        simp [formatBadgeMessage, badgeParts, h, hc, hh, hm, hl, Nat.pos_iff_ne_zero]
    · simp [formatBadgeMessage, formatBadgeMessageLegacy, h]
  · intro hn
    simp [formatBadgeMessage, badgeParts, hn, hn.ne', intercalate_singleton]

/-- Witness for C8: the zero-stats messages, the claim's two-bucket
example, and the only-other fallback at the concrete count 7. -/
theorem formatBadgeMessage_spec_witness :
    (formatBadgeMessage ⟨0, 0, 0, 0, 0, 0⟩ = "0" ∧
      formatBadgeMessageLegacy ⟨0, 0, 0, 0, 0, 0⟩ = "none") ∧
    formatBadgeMessageLegacy ⟨5, 2, 3, 0, 0, 0⟩ = formatBadgeMessage ⟨5, 2, 3, 0, 0, 0⟩ ∧
    formatBadgeMessage ⟨7, 0, 0, 0, 0, 7⟩ = toString (7 : Nat) ++ " other" :=
  ⟨(formatBadgeMessage_spec ⟨0, 0, 0, 0, 0, 0⟩ 7).1 rfl,
    ((formatBadgeMessage_spec ⟨5, 2, 3, 0, 0, 0⟩ 7).2.1 (by decide)).2,
    (formatBadgeMessage_spec ⟨0, 0, 0, 0, 0, 0⟩ 7).2.2.2 (by decide)⟩

/-- Counterexample for C9 as frozen: on the repository's own test input
`"My Report (Nightly).md"` (TestBuildGistFileAnchor, src/cmd/grypeme/
gist_test.go line 241, expected anchor `"file-my-report-nightly-md"`), the
claim's character-by-character replacement yields
`"file-my-report--nightly--md"` — the adjacent `" ("` and `")."`
characters each produce a dash, so the runs are not collapsed as the
test demands. -/
theorem buildGistFileAnchor_claim_counterexample :
    buildGistFileAnchorSpecWords "My Report (Nightly).md" = "file-my-report--nightly--md" ∧
    "file-my-report--nightly--md" ≠ "file-my-report-nightly-md" := by
  decide

/-- C9 (amended): the report link is the gist page URL plus a `#file-`
anchor derived from the report filename by lowercasing, replacing every
character outside `[a-z0-9]` by `'-'` and collapsing consecutive dashes
into one (an empty filename yields an empty anchor); the modelled anchor
reproduces the repository's entire test table. -/
theorem buildGistFileAnchor_spec :
    buildGistFileAnchor "grype-release.md" = "file-grype-release-md" ∧
    buildGistFileAnchor "grype_me-action_release.md" = "file-grype-me-action-release-md" ∧
    buildGistFileAnchor "My Report (Nightly).md" = "file-my-report-nightly-md" ∧
    buildGistFileAnchor "" = "" ∧
    gistReportURL "https://gist.github.com/user/abc123" "grype-release.md" =
      "https://gist.github.com/user/abc123#file-grype-release-md" := by
  decide

/-- Counterexample for C4 as frozen: the relative destination `"..foo"`
resolves under the workspace mount to `"/github/workspace/..foo"`, whose
relative path from the workspace is `"..foo"` — a string that starts with
`".."` — yet `copyOutputFile` accepts it (the code tests for the prefix
`"../"`, not `".."`). -/
theorem copyOutputFile_claim_counterexample :
    copyOutputFileCheck "..foo" true "" "/" = none ∧
    resolveDestinationPath "..foo" true "" "/" =
      ("/github/workspace/..foo", "/github/workspace") ∧
    filepathRel "/github/workspace" "/github/workspace/..foo" = some "..foo" ∧
    ("..").toList.isPrefixOf ("..foo").toList = true := by
  decide

/-- C4 (amended): `validatePathInWorkspace` reports path traversal exactly
when the relative path from the cleaned absolute workspace to the cleaned
absolute destination starts with `".."` followed by the path separator, or
equals `".."`; for an absolute destination no workspace is used and the
check is skipped.  The claim's two examples hold: a relative
`"../../etc/passwd"` under workspace `"/workspace"` is rejected and the
absolute `"/workspace/sub/out.json"` is accepted. -/
theorem validatePathInWorkspace_spec :
    (∀ dest workspace cwd : String,
      validatePathInWorkspace dest workspace cwd = some "path traversal detected" ↔
        ∃ r, filepathRel (filepathAbs (cleanPath workspace) cwd)
            (filepathAbs (cleanPath dest) cwd) = some r ∧
          (("../").toList.isPrefixOf r.toList = true ∨ r = "..")) ∧
    copyOutputFileCheck "../../etc/passwd" false "/workspace" "/" =
      some "path traversal detected" ∧
    copyOutputFileCheck "/workspace/sub/out.json" true "" "/" = none := by
  refine ⟨?_, by decide, by decide⟩
  intro dest workspace cwd
  have hne : ("failed to compute relative path" : String) ≠ "path traversal detected" := by
    decide
  unfold validatePathInWorkspace
  cases hrel : filepathRel (filepathAbs (cleanPath workspace) cwd)
      (filepathAbs (cleanPath dest) cwd) with
  | none => simp [hne]
  | some r =>
    simp only [Option.some.injEq, exists_eq_left']
    constructor
    · intro hv
      by_contra hcond
      rw [if_neg hcond] at hv
      exact Option.noConfusion hv
    · intro hcond
      rw [if_pos hcond]

end Grype
